import Mathlib

/-!
Verification of the gas-estimation and fee-adjustment subsystem of the
WhisperNode/hermes relayer (`crates/relayer/src/chain/cosmos/estimate.rs`).

The Rust module is embedded shallowly: the simulation round-trip
(`send_tx_simulate`) is an external collaborator, so `estimate_gas_with_tx`
and `estimate_fee_with_tx` are modelled as functions of its already-produced
result (`Except Error (Option GasInfo)`); the external fee calculator
(`gas_amount_to_fee`) is a function parameter whose invocations are logged;
telemetry emission is modelled as the list of events the call records.
-/

namespace Hermes

/-- A chain-status error's detail, as inspected by
`can_recover_from_simulation_failure` in `estimate.rs`. The four boolean
fields abstract the four predicate methods defined outside this module
(`is_client_state_height_too_low`, `is_account_sequence_mismatch_that_can_be_ignored`,
`is_out_of_order_packet_sequence_error`, `is_empty_tx_error`); `status_code`
abstracts `detail.status.code().to_string()` as read by `get_error_text`. -/
structure GrpcStatusDetail where
  is_client_state_height_too_low : Bool
  is_account_sequence_mismatch_that_can_be_ignored : Bool
  is_out_of_order_packet_sequence_error : Bool
  is_empty_tx_error : Bool
  status_code : String
deriving DecidableEq, Repr

/-- The error-detail shapes relevant to `estimate.rs`: `GrpcStatus` is the one
shape the classifier inspects further, `TxSimulateGasEstimateExceeded` is the
dedicated ceiling error constructed by `estimate_fee_with_tx` (carrying chain
id, estimated amount and configured ceiling), and `OtherDetail` stands for
every other variant of the relayer's `ErrorDetail` enum, all of which fall
into the classifier's catch-all arm and its rendered display text. -/
inductive ErrorDetail where
  | GrpcStatus (detail : GrpcStatusDetail)
  | TxSimulateGasEstimateExceeded (chain_id : String) (estimated_gas : Nat) (max_gas : Nat)
  | OtherDetail (description : String)
deriving DecidableEq, Repr

/-- The relayer `Error` type as seen by this module: only its `detail()` is
ever consulted. -/
structure Error where
  detail : ErrorDetail
deriving DecidableEq, Repr

/-- The fields of `GasConfig` read by `estimate.rs`'s estimation path:
`default_gas` (fallback gas units) and `max_gas` (hard ceiling). Gas amounts
are `u64` in the source; they are embedded as `Nat` since the module only
compares and forwards them, never performs wrapping arithmetic. -/
structure GasConfig where
  default_gas : Nat
  max_gas : Nat
deriving DecidableEq, Repr

/-- `GasInfo` as returned inside a successful simulation response:
`sr.gas_info` is an `Option GasInfo` and only `gas_used` is read. -/
structure GasInfo where
  gas_used : Nat
deriving DecidableEq, Repr

/-- `EstimatedGas` from `estimate.rs`: a simulated figure or the configured
default. -/
inductive EstimatedGas where
  | Simulated (amount : Nat)
  | Default (amount : Nat)
deriving DecidableEq, Repr

/-- `EstimatedGas::get_amount`: both variants yield their payload. -/
def EstimatedGas.get_amount : EstimatedGas → Nat
  | .Simulated amount => amount
  | .Default amount => amount

/-- One telemetry event as emitted by the `telemetry!(simulate_errors, ...)`
invocations in `estimate_gas_with_tx`: the account address, the recoverable
flag, and the error text. -/
structure TelemetryEvent where
  address : String
  recoverable : Bool
  error_text : String
deriving DecidableEq, Repr

/-- `get_error_text` from `estimate.rs`: the status code for a `GrpcStatus`
detail, the detail's display text otherwise. The display rendering of
non-status details is derived outside this module; it is embedded as the
carried description (for `OtherDetail`) or a rendering of the ceiling
error's fields. -/
def get_error_text (e : Error) : String :=
  match e.detail with
  | .GrpcStatus detail => detail.status_code
  | .TxSimulateGasEstimateExceeded chain_id _ _ => "gas estimate exceeded on " ++ chain_id
  | .OtherDetail description => description

/-- `can_recover_from_simulation_failure` from `estimate.rs`: a `GrpcStatus`
detail is recoverable when one of the four predicates holds; every other
detail shape falls into the `_ => false` arm. -/
def can_recover_from_simulation_failure (e : Error) : Bool :=
  match e.detail with
  | .GrpcStatus detail =>
      detail.is_client_state_height_too_low
        || detail.is_account_sequence_mismatch_that_can_be_ignored
        || detail.is_out_of_order_packet_sequence_error
        || detail.is_empty_tx_error
  | _ => false

/-- The observable outcome of one `estimate_gas_with_tx` call: its returned
`Result` and the telemetry events it emitted, in order. -/
structure GasEstimationRun where
  result : Except Error EstimatedGas
  telemetry_events : List TelemetryEvent
deriving Repr

/-- `estimate_gas_with_tx` from `estimate.rs`, as a function of the already
obtained simulation outcome `simulated_gas` (the value of
`send_tx_simulate(grpc_address, tx).await.map(|sr| sr.gas_info)`):
a present `gas_info` yields `Simulated(gas_used)`; an absent one yields
`Default(default_gas)`; a recoverable error is absorbed into
`Default(default_gas)` with one recoverable-flagged telemetry event; any
other error is propagated unchanged with one non-recoverable-flagged
telemetry event. -/
def estimate_gas_with_tx (gas_config : GasConfig) (account_address : String)
    (simulated_gas : Except Error (Option GasInfo)) : GasEstimationRun :=
  match simulated_gas with
  | .ok (some gas_info) =>
      ⟨.ok (.Simulated gas_info.gas_used), []⟩
  | .ok none =>
      ⟨.ok (.Default gas_config.default_gas), []⟩
  | .error e =>
      if can_recover_from_simulation_failure e then
        ⟨.ok (.Default gas_config.default_gas),
          [⟨account_address, true, get_error_text e⟩]⟩
      else
        ⟨.error e, [⟨account_address, false, get_error_text e⟩]⟩

/-- The observable outcome of one `estimate_fee_with_tx` call: its returned
`Result`, the telemetry events emitted, and the list of gas amounts the
external fee calculator `gas_amount_to_fee` was invoked on, in order. -/
structure FeeEstimationRun (Fee : Type) where
  result : Except Error (Fee × EstimatedGas)
  telemetry_events : List TelemetryEvent
  fee_calculator_calls : List Nat

/-- `estimate_fee_with_tx` from `estimate.rs`: run the gas estimator, fail
with the dedicated `tx_simulate_gas_estimate_exceeded` error when the
resolved amount is strictly above `max_gas`, otherwise pair the fee computed
by the external calculator from exactly that amount with the estimator's
`EstimatedGas` value. The calculator is a parameter and its invocations are
recorded in `fee_calculator_calls`. -/
def estimate_fee_with_tx {Fee : Type} (gas_config : GasConfig) (chain_id : String)
    (gas_amount_to_fee : Nat → Fee) (account_address : String)
    (simulated_gas : Except Error (Option GasInfo)) : FeeEstimationRun Fee :=
  let run := estimate_gas_with_tx gas_config account_address simulated_gas
  match run.result with
  | .error e => ⟨.error e, run.telemetry_events, []⟩
  | .ok estimated_gas =>
      let estimated_gas_amount := estimated_gas.get_amount
      if estimated_gas_amount > gas_config.max_gas then
        ⟨.error ⟨.TxSimulateGasEstimateExceeded chain_id estimated_gas_amount
            gas_config.max_gas⟩,
          run.telemetry_events, []⟩
      else
        ⟨.ok (gas_amount_to_fee estimated_gas_amount, estimated_gas),
          run.telemetry_events, [estimated_gas_amount]⟩

/-- A concrete recoverable simulation error: a `GrpcStatus` detail whose
client-state-height-too-low predicate holds. -/
def sample_recoverable_error : Error :=
  ⟨.GrpcStatus ⟨true, false, false, false, "FailedPrecondition"⟩⟩

/-- A concrete non-recoverable simulation error: a non-`GrpcStatus` detail. -/
def sample_fatal_error : Error :=
  ⟨.OtherDetail "internal chain error"⟩

/-- C1: a simulation failure classified recoverable is absorbed:
`estimate_gas_with_tx` returns `Ok (Default default_gas)` and emits exactly
one telemetry event flagged recoverable; the error is never surfaced. -/
theorem estimate_gas_recoverable_failure_absorbed (gas_config : GasConfig)
    (account_address : String) (e : Error)
    (h : can_recover_from_simulation_failure e = true) :
    estimate_gas_with_tx gas_config account_address (.error e) =
      ⟨.ok (.Default gas_config.default_gas),
        [⟨account_address, true, get_error_text e⟩]⟩ := by
  simp [estimate_gas_with_tx, h]

/-- Witness for C1 at a concrete recoverable error and config. -/
theorem estimate_gas_recoverable_failure_absorbed_witness :
    can_recover_from_simulation_failure sample_recoverable_error = true ∧
    estimate_gas_with_tx ⟨100000, 400000⟩ "cosmos1addr"
        (.error sample_recoverable_error) =
      ⟨.ok (.Default 100000),
        [⟨"cosmos1addr", true, get_error_text sample_recoverable_error⟩]⟩ :=
  ⟨rfl, estimate_gas_recoverable_failure_absorbed ⟨100000, 400000⟩ "cosmos1addr"
    sample_recoverable_error rfl⟩

/-- C2: `can_recover_from_simulation_failure` is a total Boolean predicate
returning `true` exactly when the error's detail is a `GrpcStatus` failure
matching one of the four enumerated conditions, and `false` for every other
error, including every non-`GrpcStatus` shape. -/
theorem can_recover_iff_grpc_status_allow_list (e : Error) :
    can_recover_from_simulation_failure e = true ↔
      ∃ detail : GrpcStatusDetail, e.detail = .GrpcStatus detail ∧
        (detail.is_client_state_height_too_low = true ∨
         detail.is_account_sequence_mismatch_that_can_be_ignored = true ∨
         detail.is_out_of_order_packet_sequence_error = true ∨
         detail.is_empty_tx_error = true) := by
  unfold can_recover_from_simulation_failure
  cases hd : e.detail with
  | GrpcStatus detail =>
      simp only [Bool.or_eq_true]
      constructor
      · intro h
        exact ⟨detail, rfl, by tauto⟩
      · rintro ⟨d, hdq, hcond⟩
        cases hdq
        tauto
  | TxSimulateGasEstimateExceeded chain_id estimated_gas max_gas =>
      simp
  | OtherDetail description =>
      simp

/-- C4: a simulation failure not classified recoverable is propagated
unchanged, with exactly one telemetry event flagged non-recoverable. -/
theorem estimate_gas_fatal_failure_propagated (gas_config : GasConfig)
    (account_address : String) (e : Error)
    (h : can_recover_from_simulation_failure e = false) :
    estimate_gas_with_tx gas_config account_address (.error e) =
      ⟨.error e, [⟨account_address, false, get_error_text e⟩]⟩ := by
  simp [estimate_gas_with_tx, h]

/-- Witness for C4 at a concrete non-recoverable error and config. -/
theorem estimate_gas_fatal_failure_propagated_witness :
    can_recover_from_simulation_failure sample_fatal_error = false ∧
    estimate_gas_with_tx ⟨100000, 400000⟩ "cosmos1addr"
        (.error sample_fatal_error) =
      ⟨.error sample_fatal_error,
        [⟨"cosmos1addr", false, get_error_text sample_fatal_error⟩]⟩ :=
  ⟨rfl, estimate_gas_fatal_failure_propagated ⟨100000, 400000⟩ "cosmos1addr"
    sample_fatal_error rfl⟩

/-- C5: a successful simulation reporting a gas-used figure `g` yields
`Simulated(g)` (with no telemetry event), and `get_amount` on that result
returns `g`. -/
theorem estimate_gas_successful_simulation_returns_simulated
    (gas_config : GasConfig) (account_address : String) (g : Nat) :
    estimate_gas_with_tx gas_config account_address (.ok (some ⟨g⟩)) =
      ⟨.ok (.Simulated g), []⟩ ∧
    (EstimatedGas.Simulated g).get_amount = g :=
  ⟨rfl, rfl⟩

/-- C8: a successful simulation reporting no gas-used figure yields
`Default(default_gas)` without error (and no telemetry event). -/
theorem estimate_gas_missing_figure_returns_default (gas_config : GasConfig)
    (account_address : String) :
    estimate_gas_with_tx gas_config account_address (.ok none) =
      ⟨.ok (.Default gas_config.default_gas), []⟩ :=
  rfl

/-- C9: `get_amount` returns the payload of either variant, so the amount is
interpretable identically downstream regardless of provenance. -/
theorem get_amount_independent_of_variant (a : Nat) :
    (EstimatedGas.Simulated a).get_amount = a ∧
    (EstimatedGas.Default a).get_amount = a :=
  ⟨rfl, rfl⟩

/-- C10: a present-but-zero gas-used figure is trusted as `Simulated 0`; the
`Default` fallback is taken only when `gas_info` is entirely absent, never
for any present figure. -/
theorem estimate_gas_zero_figure_is_simulated (gas_config : GasConfig)
    (account_address : String) :
    estimate_gas_with_tx gas_config account_address (.ok (some ⟨0⟩)) =
      ⟨.ok (.Simulated 0), []⟩ ∧
    (∀ gas_info : GasInfo,
      estimate_gas_with_tx gas_config account_address (.ok (some gas_info)) =
        ⟨.ok (.Simulated gas_info.gas_used), []⟩) :=
  ⟨rfl, fun _ => rfl⟩

/-- C3: whenever the gas estimator resolves (from either variant) to an
amount strictly above `max_gas`, `estimate_fee_with_tx` fails with the
dedicated ceiling-exceeded error carrying the chain id, the estimated amount
and the ceiling, and the fee calculator is never invoked. -/
theorem estimate_fee_ceiling_exceeded {Fee : Type} (gas_config : GasConfig)
    (chain_id account_address : String) (gas_amount_to_fee : Nat → Fee)
    (simulated_gas : Except Error (Option GasInfo)) (g : EstimatedGas)
    (tel : List TelemetryEvent)
    (hgas : estimate_gas_with_tx gas_config account_address simulated_gas =
      ⟨.ok g, tel⟩)
    (hover : g.get_amount > gas_config.max_gas) :
    estimate_fee_with_tx gas_config chain_id gas_amount_to_fee account_address
        simulated_gas =
      ⟨.error ⟨.TxSimulateGasEstimateExceeded chain_id g.get_amount
          gas_config.max_gas⟩, tel, []⟩ := by
  simp [estimate_fee_with_tx, hgas, hover]

/-- Witness for C3: `default_gas=100000, max_gas=400000`, simulation reports
`gas_used=500000`. -/
theorem estimate_fee_ceiling_exceeded_witness :
    estimate_gas_with_tx ⟨100000, 400000⟩ "cosmos1addr" (.ok (some ⟨500000⟩)) =
      ⟨.ok (.Simulated 500000), []⟩ ∧
    (EstimatedGas.Simulated 500000).get_amount > 400000 ∧
    @estimate_fee_with_tx Nat ⟨100000, 400000⟩ "chain-a" (fun n => n)
        "cosmos1addr" (.ok (some ⟨500000⟩)) =
      ⟨.error ⟨.TxSimulateGasEstimateExceeded "chain-a" 500000 400000⟩, [], []⟩ :=
  ⟨rfl, by decide,
    estimate_fee_ceiling_exceeded ⟨100000, 400000⟩ "chain-a" "cosmos1addr"
      (fun n => n) (.ok (some ⟨500000⟩)) (.Simulated 500000) [] rfl (by decide)⟩

/-- C6: whenever the gas estimator resolves to an amount at most `max_gas`,
`estimate_fee_with_tx` returns `Ok` of the fee the calculator computes from
exactly that amount paired with the very same `EstimatedGas` value, and the
calculator is invoked exactly once, on that amount. -/
theorem estimate_fee_below_ceiling {Fee : Type} (gas_config : GasConfig)
    (chain_id account_address : String) (gas_amount_to_fee : Nat → Fee)
    (simulated_gas : Except Error (Option GasInfo)) (g : EstimatedGas)
    (tel : List TelemetryEvent)
    (hgas : estimate_gas_with_tx gas_config account_address simulated_gas =
      ⟨.ok g, tel⟩)
    (hle : g.get_amount ≤ gas_config.max_gas) :
    estimate_fee_with_tx gas_config chain_id gas_amount_to_fee account_address
        simulated_gas =
      ⟨.ok (gas_amount_to_fee g.get_amount, g), tel, [g.get_amount]⟩ := by
  simp [estimate_fee_with_tx, hgas, Nat.not_lt.mpr hle]

/-- Witness for C6: `default_gas=100000, max_gas=400000`, simulation reports
`gas_used=250000`; the fee is computed from `250000`. -/
theorem estimate_fee_below_ceiling_witness :
    estimate_gas_with_tx ⟨100000, 400000⟩ "cosmos1addr" (.ok (some ⟨250000⟩)) =
      ⟨.ok (.Simulated 250000), []⟩ ∧
    (EstimatedGas.Simulated 250000).get_amount ≤ 400000 ∧
    @estimate_fee_with_tx Nat ⟨100000, 400000⟩ "chain-a" (fun n => 2 * n)
        "cosmos1addr" (.ok (some ⟨250000⟩)) =
      ⟨.ok (2 * 250000, .Simulated 250000), [], [250000]⟩ :=
  ⟨rfl, by decide,
    estimate_fee_below_ceiling ⟨100000, 400000⟩ "chain-a" "cosmos1addr"
      (fun n => 2 * n) (.ok (some ⟨250000⟩)) (.Simulated 250000) [] rfl
      (by decide)⟩

/-- C7: a misconfiguration with `default_gas > max_gas` is not rejected up
front; whenever estimation resolves to the `Default(default_gas)` fallback
(simulation succeeded without a figure, or failed recoverably),
`estimate_fee_with_tx` subsequently fails with the ceiling-exceeded error. -/
theorem estimate_fee_misconfigured_default_hits_ceiling {Fee : Type}
    (gas_config : GasConfig) (chain_id account_address : String)
    (gas_amount_to_fee : Nat → Fee)
    (simulated_gas : Except Error (Option GasInfo))
    (hmis : gas_config.default_gas > gas_config.max_gas)
    (hfall : simulated_gas = .ok none ∨
      ∃ e : Error, simulated_gas = .error e ∧
        can_recover_from_simulation_failure e = true) :
    (estimate_fee_with_tx gas_config chain_id gas_amount_to_fee account_address
        simulated_gas).result =
      .error ⟨.TxSimulateGasEstimateExceeded chain_id gas_config.default_gas
        gas_config.max_gas⟩ := by
  rcases hfall with hnone | ⟨e, herr, hrec⟩
  · subst hnone
    simp [estimate_fee_with_tx, estimate_gas_with_tx, EstimatedGas.get_amount,
      hmis]
  · subst herr
    simp [estimate_fee_with_tx, estimate_gas_with_tx, hrec,
      EstimatedGas.get_amount, hmis]

/-- Witness for C7: `default_gas=500000 > max_gas=400000`, recoverable
simulation failure; fee estimation fails with the ceiling error. -/
theorem estimate_fee_misconfigured_default_hits_ceiling_witness :
    (500000 : Nat) > 400000 ∧
    can_recover_from_simulation_failure sample_recoverable_error = true ∧
    (@estimate_fee_with_tx Nat ⟨500000, 400000⟩ "chain-a" (fun n => n)
        "cosmos1addr" (.error sample_recoverable_error)).result =
      .error ⟨.TxSimulateGasEstimateExceeded "chain-a" 500000 400000⟩ :=
  ⟨by decide, rfl,
    estimate_fee_misconfigured_default_hits_ceiling ⟨500000, 400000⟩ "chain-a"
      "cosmos1addr" (fun n => n) (.error sample_recoverable_error) (by decide)
      (Or.inr ⟨sample_recoverable_error, rfl, rfl⟩)⟩

end Hermes
